import Mathlib

/-!
Shallow embedding of the Hdl21 primitive-definition-and-validation engine
(`src/hdl21/primitives.py`) and the concatenation-marker protocol
(`src/hdl21/concatable.py`).

Python classes become Lean structures; the pydantic validating construction
(`__init__` followed by `__post_init_post_parse__`) becomes an explicit
`make` function returning `Except Err _`; Python `raise` sites become `Err`
constructors carrying what the exception message interpolates.
-/

deriving instance DecidableEq for Except

namespace Hdl21

/-- Modelled from the spec: the port/signal visibility enum from
`hdl21.signal` (not under `src/`). The spec only requires that `PORT` exists
and that other visibilities exist (§3: "visibility: enum"; primitive ports
must equal PORT). -/
inductive Visibility
  | PORT
  | INTERNAL
deriving DecidableEq

/-- Modelled from the spec: the Port/Signal descriptor from `hdl21.signal`
(not under `src/`): a named terminal with a visibility tag (§2, §3). Only the
fields the engine reads are modelled. -/
structure Signal where
  name : String
  vis : Visibility
deriving DecidableEq

/-- Modelled from the spec: the `Port(name=...)` constructor from
`hdl21.signal` (not under `src/`); per the glossary a Port is "always
externally visible", i.e. it carries PORT visibility. -/
def Port (name : String) : Signal :=
  { name := name, vis := Visibility.PORT }

/-- Enumerated Primitive-Types (`PrimitiveType` in primitives.py). -/
inductive PrimitiveType
  | IDEAL
  | PHYSICAL
deriving DecidableEq

/-- NMOS/PMOS Type Enumeration (`MosType`). -/
inductive MosType
  | NMOS
  | PMOS
deriving DecidableEq

/-- MOS Threshold Enumeration (`MosVth`). -/
inductive MosVth
  | STD
  | LOW
  | HIGH
deriving DecidableEq

/-- Bipolar NPN/PNP Type Enumeration (`BipolarType`). -/
inductive BipolarType
  | NPN
  | PNP
deriving DecidableEq

/-- MOS Transistor Parameters (`MosParams`): fields as declared in the
source. `w` and `l` are `Optional[int]` defaulting to `None`; `npar` an
`int`; `model` an `Optional[str]`. Value checks live in `MosParams.make`. -/
structure MosParams where
  w : Option Int
  l : Option Int
  npar : Int
  tp : MosType
  vth : MosVth
  model : Option String
deriving DecidableEq

/-- Diode parameters (`DiodeParams`): no value checks. -/
structure DiodeParams where
  w : Option Int
  l : Option Int
  model : Option String
deriving DecidableEq

/-- Ideal resistor parameters (`ResistorParams`). The Python field is a
`float`; no claim computes with it, so it is modelled as a rational. -/
structure ResistorParams where
  r : Rat
deriving DecidableEq

/-- Physical resistor parameters (`PhysicalResistorParams`), declared in the
source at lines 233-235 and never referenced again. -/
structure PhysicalResistorParams where
  r : Rat
deriving DecidableEq

/-- Ideal capacitor parameters (`IdealCapacitorParams`). -/
structure IdealCapacitorParams where
  c : Rat
deriving DecidableEq

/-- Physical capacitor parameters (`PhysicalCapacitorParams`). -/
structure PhysicalCapacitorParams where
  c : Rat
deriving DecidableEq

/-- Ideal inductor parameters (`IdealInductorParams`). -/
structure IdealInductorParams where
  l : Rat
deriving DecidableEq

/-- Physical inductor parameters (`PhysicalInductorParams`). -/
structure PhysicalInductorParams where
  l : Rat
deriving DecidableEq

/-- Net-tie parameters (`PhysicalShortParams`). -/
structure PhysicalShortParams where
  layer : Option Int
  w : Option Int
  l : Option Int
deriving DecidableEq

/-- `ScalarParam = Union[Prefixed, int, float, str]`. `Prefixed` comes from
`hdl21.prefix` (not under `src/`) and no claim inspects it, so it is an
opaque alternative. -/
inductive ScalarParam
  | prefixed
  | intVal (i : Int)
  | floatVal (x : Rat)
  | strVal (s : String)
deriving DecidableEq

/-- `ScalarOption = Optional[ScalarParam]`. -/
abbrev ScalarOption := Option ScalarParam

/-- `DcVoltageSource` Parameters (`DcVoltageSourceParams`). -/
structure DcVoltageSourceParams where
  dc : ScalarOption
  ac : ScalarOption
deriving DecidableEq

/-- `PulseVoltageSource` Parameters (`PulseVoltageSourceParams`). -/
structure PulseVoltageSourceParams where
  delay : ScalarOption
  v1 : ScalarOption
  v2 : ScalarOption
  period : ScalarOption
  rise : ScalarOption
  fall : ScalarOption
  width : ScalarOption
deriving DecidableEq

/-- Current source parameters (`CurrentSourceParams`). -/
structure CurrentSourceParams where
  dc : ScalarOption
deriving DecidableEq

/-- Bipolar Transistor Parameters (`BipolarParams`); value checks live in
`BipolarParams.make`. -/
structure BipolarParams where
  w : Option Int
  l : Option Int
  tp : BipolarType
deriving DecidableEq

/-- The Python classes that can appear as a `Primitive.paramtype`: the
parameter-schema classes declared with `@paramclass` in primitives.py, the
`NoParams` sentinel schema from `hdl21.params`, and `NotAParamclass`, which
stands for any other Python type (e.g. `int`) a catalog author might pass. -/
inductive PType
  | MosParams
  | DiodeParams
  | ResistorParams
  | PhysicalResistorParams
  | IdealCapacitorParams
  | PhysicalCapacitorParams
  | IdealInductorParams
  | PhysicalInductorParams
  | PhysicalShortParams
  | DcVoltageSourceParams
  | PulseVoltageSourceParams
  | CurrentSourceParams
  | BipolarParams
  | NoParamsType
  | NotAParamclass
deriving DecidableEq

/-- A runtime parameter value, tagged by the Python class it is an instance
of. `noParams` is the `NoParams` sentinel bound when a Primitive is called
with no argument. -/
inductive PValue
  | mos (p : MosParams)
  | diode (p : DiodeParams)
  | res (p : ResistorParams)
  | physRes (p : PhysicalResistorParams)
  | idealCap (p : IdealCapacitorParams)
  | physCap (p : PhysicalCapacitorParams)
  | idealInd (p : IdealInductorParams)
  | physInd (p : PhysicalInductorParams)
  | physShort (p : PhysicalShortParams)
  | dcv (p : DcVoltageSourceParams)
  | pulse (p : PulseVoltageSourceParams)
  | isrcV (p : CurrentSourceParams)
  | bipolar (p : BipolarParams)
  | noParams
deriving DecidableEq

/-- Python `isinstance(value, cls)`. The paramclasses are unrelated classes
(no subclassing among them), so a value is an instance of exactly the class
that constructed it. -/
def isinstance : PValue → PType → Bool
  | .mos _, .MosParams => true
  | .diode _, .DiodeParams => true
  | .res _, .ResistorParams => true
  | .physRes _, .PhysicalResistorParams => true
  | .idealCap _, .IdealCapacitorParams => true
  | .physCap _, .PhysicalCapacitorParams => true
  | .idealInd _, .IdealInductorParams => true
  | .physInd _, .PhysicalInductorParams => true
  | .physShort _, .PhysicalShortParams => true
  | .dcv _, .DcVoltageSourceParams => true
  | .pulse _, .PulseVoltageSourceParams => true
  | .isrcV _, .CurrentSourceParams => true
  | .bipolar _, .BipolarParams => true
  | .noParams, .NoParamsType => true
  | _, _ => false

/-- Modelled from the spec: `isparamclass` from `hdl21.params` (not under
`src/`). It recognizes exactly the classes declared with `@paramclass` —
visible in primitives.py for every catalog schema — plus the no-parameters
sentinel schema the spec lists among the parameter schemas (§3);
`NotAParamclass` stands for any type it rejects. -/
def isparamclass : PType → Bool
  | .NotAParamclass => false
  | _ => true

/-- Every `raise` site of the engine, carrying what the exception message
interpolates. The spec's taxonomy (§7) maps onto these sites:
ConfigurationError = `invalidParamType`; PortDefinitionError = `unnamedPort`
and `invalidPortVis`; ParameterTypeError = `invalidCallParams`;
ParameterValueError = the five geometry/multiplicity checks; CapabilityError
= `notConnectable`; `noneComparison` is the TypeError Python itself raises
for `None <= 0`. -/
inductive Err
  | invalidParamType (paramtype : PType) (primName : String)
  | unnamedPort (port : Signal) (primName : String)
  | invalidPortVis (portName : String) (primName : String)
  | invalidCallParams (params : PValue) (primName : String) (expected : PType)
  | mosInvalidWidth (w : Int)
  | mosInvalidLength (l : Int)
  | mosInvalidNpar (npar : Int)
  | bipolarInvalidWidth (w : Int)
  | bipolarInvalidLength (l : Int)
  | noneComparison
  | notConnectable (clsName : String)
deriving DecidableEq

/-- Spec §7: ConfigurationError — invalid parameter-schema type on a
Primitive. -/
def Err.isConfigurationError : Err → Bool
  | .invalidParamType _ _ => true
  | _ => false

/-- Spec §7: PortDefinitionError — unnamed port or non-PORT visibility. -/
def Err.isPortDefinitionError : Err → Bool
  | .unnamedPort _ _ => true
  | .invalidPortVis _ _ => true
  | _ => false

/-- Spec §7: ParameterTypeError — a call's parameters are not an instance of
the expected schema. -/
def Err.isParameterTypeError : Err → Bool
  | .invalidCallParams _ _ _ => true
  | _ => false

/-- Spec §7: ParameterValueError — geometry or multiplicity value out of
domain. -/
def Err.isParameterValueError : Err → Bool
  | .mosInvalidWidth _ => true
  | .mosInvalidLength _ => true
  | .mosInvalidNpar _ => true
  | .bipolarInvalidWidth _ => true
  | .bipolarInvalidLength _ => true
  | _ => false

/-- Spec §7: CapabilityError — concatenation marking applied to a type
lacking the connectable capability. -/
def Err.isCapabilityError : Err → Bool
  | .notConnectable _ => true
  | _ => false

/-- Validating construction of `MosParams`: field assignment followed by
`__post_init_post_parse__`. Python evaluates `self.w <= 0` first; when `w`
is `None` (its declared default) that comparison itself raises `TypeError`
(`None <= 0` is unsupported), modelled as `noneComparison`. Then `self.l <=
0`, then `self.npar <= 0`, each raising `ValueError` on a nonpositive
value. -/
def MosParams.make (w l : Option Int) (npar : Int) (tp : MosType)
    (vth : MosVth) (model : Option String) : Except Err MosParams :=
  match w with
  | none => .error .noneComparison
  | some wi =>
    if wi ≤ 0 then .error (.mosInvalidWidth wi)
    else
      match l with
      | none => .error .noneComparison
      | some li =>
        if li ≤ 0 then .error (.mosInvalidLength li)
        else if npar ≤ 0 then .error (.mosInvalidNpar npar)
        else .ok ⟨w, l, npar, tp, vth, model⟩

/-- Validating construction of `BipolarParams`: `self.w <= 0` then
`self.l <= 0`, with the same `None`-comparison behavior as `MosParams`. -/
def BipolarParams.make (w l : Option Int) (tp : BipolarType) :
    Except Err BipolarParams :=
  match w with
  | none => .error .noneComparison
  | some wi =>
    if wi ≤ 0 then .error (.bipolarInvalidWidth wi)
    else
      match l with
      | none => .error .noneComparison
      | some li =>
        if li ≤ 0 then .error (.bipolarInvalidLength li)
        else .ok ⟨w, l, tp⟩

/-- Hdl21 Primitive Component (`Primitive`): name, description, ordered port
list, parameter-schema type, ideal/physical category. -/
structure Primitive where
  name : String
  desc : String
  port_list : List Signal
  paramtype : PType
  primtype : PrimitiveType
deriving DecidableEq

/-- The port loop of `Primitive.__post_init_post_parse__`: for each port in
list order, `if not p.name: raise ValueError` then
`if p.vis != Visibility.PORT: raise ValueError`. -/
def checkPorts (primName : String) : List Signal → Except Err Unit
  | [] => .ok ()
  | p :: rest =>
    if p.name = "" then .error (.unnamedPort p primName)
    else if p.vis ≠ Visibility.PORT then .error (.invalidPortVis p.name primName)
    else checkPorts primName rest

/-- Validating construction of `Primitive`: first
`if not isparamclass(paramtype): raise TypeError` (naming the offending type
and the primitive name), then the port loop. -/
def Primitive.make (name desc : String) (port_list : List Signal)
    (paramtype : PType) (primtype : PrimitiveType) : Except Err Primitive :=
  if isparamclass paramtype = false then
    .error (.invalidParamType paramtype name)
  else
    match checkPorts name port_list with
    | .error e => .error e
    | .ok _ => .ok ⟨name, desc, port_list, paramtype, primtype⟩

/-- `Primitive.Params` property: returns the parameter-schema type. -/
def Primitive.Params (p : Primitive) : PType :=
  p.paramtype

/-- `Primitive.ports` property: the name-keyed mapping
`{p.name: p for p in self.port_list}`, modelled as the association list in
insertion order (Python dict semantics: a later duplicate name would
overwrite an earlier one; the catalog has no duplicate port names). -/
def Primitive.ports (p : Primitive) : List (String × Signal) :=
  p.port_list.map (fun s => (s.name, s))

/-- Primitive Call (`PrimitiveCall`): a Primitive bound to its
parameter values. -/
structure PrimitiveCall where
  prim : Primitive
  params : PValue
deriving DecidableEq

/-- Validating construction of `PrimitiveCall`
(`__post_init_post_parse__`): `if not isinstance(self.params,
self.prim.paramtype): raise TypeError` naming the params, the primitive and
the expected schema. -/
def PrimitiveCall.make (prim : Primitive) (params : PValue) :
    Except Err PrimitiveCall :=
  if isinstance params prim.paramtype = false then
    .error (.invalidCallParams params prim.name prim.paramtype)
  else .ok ⟨prim, params⟩

/-- `PrimitiveCall.ports` property: delegates to the bound primitive. -/
def PrimitiveCall.ports (c : PrimitiveCall) : List (String × Signal) :=
  c.prim.ports

/-- `Primitive.__call__(params)`: constructs a `PrimitiveCall`. -/
def Primitive.call (p : Primitive) (params : PValue) :
    Except Err PrimitiveCall :=
  PrimitiveCall.make p params

/-- `Primitive.__call__()` with the argument left at its declared default,
the `NoParams` sentinel. -/
def Primitive.callNoArg (p : Primitive) : Except Err PrimitiveCall :=
  PrimitiveCall.make p PValue.noParams

/-! The catalog: the named primitive instances and their aliases, as the
data literals of primitives.py. Each is a successfully constructed
descriptor (see `catalog_make_ok`). -/

/-- `MosPorts = [Port(name="d"), Port(name="g"), Port(name="s"),
Port(name="b")]`. -/
def MosPorts : List Signal :=
  [Port "d", Port "g", Port "s", Port "b"]

/-- The `Mos` primitive (its `port_list` is a deep copy of `MosPorts`;
value-equal here). -/
def Mos : Primitive :=
  { name := "Mos", desc := "Mos Transistor", port_list := MosPorts,
    paramtype := PType.MosParams, primtype := PrimitiveType.PHYSICAL }

/-- `Nmos(params)`: `Mos(replace(params, tp=MosType.NMOS))`.
`dataclasses.replace` rebuilds the value through the validating
constructor with every field of `params` except `tp`, leaving `params`
itself untouched. -/
def Nmos (params : MosParams) : Except Err PrimitiveCall :=
  match MosParams.make params.w params.l params.npar MosType.NMOS
      params.vth params.model with
  | .error e => .error e
  | .ok q => Primitive.call Mos (PValue.mos q)

/-- `Pmos(params)`: `Mos(replace(params, tp=MosType.PMOS))`. -/
def Pmos (params : MosParams) : Except Err PrimitiveCall :=
  match MosParams.make params.w params.l params.npar MosType.PMOS
      params.vth params.model with
  | .error e => .error e
  | .ok q => Primitive.call Mos (PValue.mos q)

/-- The `Diode` primitive. -/
def Diode : Primitive :=
  { name := "Diode", desc := "Diode",
    port_list := [Port "p", Port "n"],
    paramtype := PType.DiodeParams, primtype := PrimitiveType.PHYSICAL }

/-- Alias `D = Diode`. -/
def D : Primitive := Diode

/-- The `IdealResistor` primitive. -/
def IdealResistor : Primitive :=
  { name := "IdealResistor", desc := "Ideal Resistor",
    port_list := [Port "p", Port "n"],
    paramtype := PType.ResistorParams, primtype := PrimitiveType.IDEAL }

/-- Alias `R = IdealResistor`. -/
def R : Primitive := IdealResistor

/-- Alias `Res = IdealResistor`. -/
def Res : Primitive := IdealResistor

/-- Alias `Resistor = IdealResistor`. -/
def Resistor : Primitive := IdealResistor

/-- The `PhysicalResistor` primitive. Note: the source (line 242) declares
its `paramtype` as `ResistorParams`, not the `PhysicalResistorParams` class
defined immediately above it, which is never used. -/
def PhysicalResistor : Primitive :=
  { name := "PhysicalResistor", desc := "Physical Resistor",
    port_list := [Port "p", Port "n"],
    paramtype := PType.ResistorParams, primtype := PrimitiveType.PHYSICAL }

/-- The `IdealCapacitor` primitive. -/
def IdealCapacitor : Primitive :=
  { name := "IdealCapacitor", desc := "Ideal Capacitor",
    port_list := [Port "p", Port "n"],
    paramtype := PType.IdealCapacitorParams, primtype := PrimitiveType.IDEAL }

/-- Alias `C = IdealCapacitor`. -/
def C : Primitive := IdealCapacitor

/-- Alias `Cap = IdealCapacitor`. -/
def Cap : Primitive := IdealCapacitor

/-- Alias `Capacitor = IdealCapacitor`. -/
def Capacitor : Primitive := IdealCapacitor

/-- The `PhysicalCapacitor` primitive. -/
def PhysicalCapacitor : Primitive :=
  { name := "PhysicalCapacitor", desc := "Physical Capacitor",
    port_list := [Port "p", Port "n"],
    paramtype := PType.PhysicalCapacitorParams,
    primtype := PrimitiveType.PHYSICAL }

/-- The `IdealInductor` primitive. -/
def IdealInductor : Primitive :=
  { name := "IdealInductor", desc := "Ideal Inductor",
    port_list := [Port "p", Port "n"],
    paramtype := PType.IdealInductorParams, primtype := PrimitiveType.IDEAL }

/-- Alias `L = IdealInductor`. -/
def L : Primitive := IdealInductor

/-- Alias `Inductor = IdealInductor`. -/
def Inductor : Primitive := IdealInductor

/-- The `PhysicalInductor` primitive. -/
def PhysicalInductor : Primitive :=
  { name := "PhysicalInductor", desc := "Physical Inductor",
    port_list := [Port "p", Port "n"],
    paramtype := PType.PhysicalInductorParams,
    primtype := PrimitiveType.PHYSICAL }

/-- The `PhysicalShort` primitive. -/
def PhysicalShort : Primitive :=
  { name := "PhysicalShort", desc := "Short-Circuit/ Net-Tie",
    port_list := [Port "p", Port "n"],
    paramtype := PType.PhysicalShortParams,
    primtype := PrimitiveType.PHYSICAL }

/-- Alias `Short = PhysicalShort`. -/
def Short : Primitive := PhysicalShort

/-- The `DcVoltageSource` primitive. -/
def DcVoltageSource : Primitive :=
  { name := "DcVoltageSource", desc := "Ideal DC Voltage Source",
    port_list := [Port "p", Port "n"],
    paramtype := PType.DcVoltageSourceParams,
    primtype := PrimitiveType.IDEAL }

/-- Alias `V = DcVoltageSource`. -/
def V : Primitive := DcVoltageSource

/-- Alias `Vdc = DcVoltageSource`. -/
def Vdc : Primitive := DcVoltageSource

/-- Alias `Vsrc = DcVoltageSource`. -/
def Vsrc : Primitive := DcVoltageSource

/-- The `PulseVoltageSource` primitive. -/
def PulseVoltageSource : Primitive :=
  { name := "PulseVoltageSource", desc := "Pulse Voltage Source",
    port_list := [Port "p", Port "n"],
    paramtype := PType.PulseVoltageSourceParams,
    primtype := PrimitiveType.IDEAL }

/-- Alias `Vpu = PulseVoltageSource`. -/
def Vpu : Primitive := PulseVoltageSource

/-- Alias `Vpulse = PulseVoltageSource`. -/
def Vpulse : Primitive := PulseVoltageSource

/-- The `CurrentSource` primitive. -/
def CurrentSource : Primitive :=
  { name := "CurrentSource", desc := "Ideal DC Current Source",
    port_list := [Port "p", Port "n"],
    paramtype := PType.CurrentSourceParams, primtype := PrimitiveType.IDEAL }

/-- Alias `I = CurrentSource`. -/
def I : Primitive := CurrentSource

/-- Alias `Idc = CurrentSource`. -/
def Idc : Primitive := CurrentSource

/-- Alias `Isrc = CurrentSource`. -/
def Isrc : Primitive := CurrentSource

/-- The `Bipolar` primitive. -/
def Bipolar : Primitive :=
  { name := "Bipolar", desc := "Bipolar Transistor",
    port_list := [Port "c", Port "b", Port "e"],
    paramtype := PType.BipolarParams, primtype := PrimitiveType.PHYSICAL }

/-- Alias `Bjt = Bipolar`. -/
def Bjt : Primitive := Bipolar

/-- `Npn(params)`: `Bipolar(replace(params, tp=BipolarType.NPN))`. -/
def Npn (params : BipolarParams) : Except Err PrimitiveCall :=
  match BipolarParams.make params.w params.l BipolarType.NPN with
  | .error e => .error e
  | .ok q => Primitive.call Bipolar (PValue.bipolar q)

/-- `Pnp(params)`: `Bipolar(replace(params, tp=BipolarType.PNP))`. -/
def Pnp (params : BipolarParams) : Except Err PrimitiveCall :=
  match BipolarParams.make params.w params.l BipolarType.PNP with
  | .error e => .error e
  | .ok q => Primitive.call Bipolar (PValue.bipolar q)

/-- The catalog: every named primitive instance defined in primitives.py. -/
def catalog : List Primitive :=
  [Mos, Diode, IdealResistor, PhysicalResistor, IdealCapacitor,
   PhysicalCapacitor, IdealInductor, PhysicalInductor, PhysicalShort,
   DcVoltageSource, PulseVoltageSource, CurrentSource, Bipolar]

/-- Sanity: every catalog descriptor is exactly what its validating
construction produces, i.e. the module-load-time constructions succeed. -/
theorem catalog_make_ok :
    ∀ p ∈ catalog,
      Primitive.make p.name p.desc p.port_list p.paramtype p.primtype
        = .ok p := by
  decide

/-! The concatenation-marker protocol (`src/hdl21/concatable.py`). Python
classes and their instances are modelled explicitly: a `PyType` carries the
capabilities the protocol reads and writes, a `PyObj` is an instance of its
`ty`. -/

/-- A Python class as the concatenation protocol sees it: its name, whether
it satisfies the connectable capability, and its `__concatable__` attribute
(`false` models the attribute being absent, which is `getattr`'s default;
the code only ever sets it to `True`). -/
structure PyType where
  name : String
  connectable : Bool
  concatableAttr : Bool
deriving DecidableEq

/-- An instance of a Python class; attribute lookup for `__concatable__`
falls through to the class. -/
structure PyObj where
  ty : PyType
deriving DecidableEq

/-- Modelled from the spec: `is_connectable` from `hdl21.connect` (not under
`src/`), "a structural predicate answering: can instances of this type
participate in a connection?" (§2) — read off the modelled capability. -/
def is_connectable (cls : PyType) : Bool :=
  cls.connectable

/-- `concatable(cls)` decorator: `if not is_connectable(cls): raise
TypeError`; otherwise sets the marker `cls.__concatable__ = True` and
returns the class. -/
def concatable (cls : PyType) : Except Err PyType :=
  if is_connectable cls = false then .error (.notConnectable cls.name)
  else .ok { cls with concatableAttr := true }

/-- `is_concatable(obj) = getattr(obj, "__concatable__", False)`. -/
def is_concatable (obj : PyObj) : Bool :=
  obj.ty.concatableAttr

/-! Helper lemmas. -/

/-- A `MosParams` construction succeeds exactly when both geometry fields
are supplied and positive and the parallel-finger count is positive, and
then it returns exactly the given field values. -/
theorem mosParams_make_ok_iff {w l : Option Int} {npar : Int} {tp : MosType}
    {vth : MosVth} {model : Option String} {r : MosParams} :
    MosParams.make w l npar tp vth model = .ok r ↔
      (∃ wi, w = some wi ∧ 0 < wi) ∧ (∃ li, l = some li ∧ 0 < li) ∧
        0 < npar ∧ r = ⟨w, l, npar, tp, vth, model⟩ := by
  constructor
  · intro h
    cases w with
    | none => exact absurd h (by simp [MosParams.make])
    | some wi =>
      cases l with
      | none =>
        exfalso
        by_cases hw : wi ≤ 0 <;> simp [MosParams.make, hw] at h
      | some li =>
        by_cases hw : wi ≤ 0
        · simp [MosParams.make, hw] at h
        · by_cases hl : li ≤ 0
          · simp [MosParams.make, hw, hl] at h
          · by_cases hn : npar ≤ 0
            · simp [MosParams.make, hw, hl, hn] at h
            · simp [MosParams.make, hw, hl, hn] at h
              exact ⟨⟨wi, rfl, by omega⟩, ⟨li, rfl, by omega⟩, by omega,
                h.symm⟩
  · rintro ⟨⟨wi, rfl, hwi⟩, ⟨li, rfl, hli⟩, hn, rfl⟩
    simp [MosParams.make, not_le.mpr hwi, not_le.mpr hli, not_le.mpr hn]

/-- A `BipolarParams` construction succeeds exactly when both geometry
fields are supplied and positive, and then it returns exactly the given
field values. -/
theorem bipolarParams_make_ok_iff {w l : Option Int} {tp : BipolarType}
    {r : BipolarParams} :
    BipolarParams.make w l tp = .ok r ↔
      (∃ wi, w = some wi ∧ 0 < wi) ∧ (∃ li, l = some li ∧ 0 < li) ∧
        r = ⟨w, l, tp⟩ := by
  constructor
  · intro h
    cases w with
    | none => exact absurd h (by simp [BipolarParams.make])
    | some wi =>
      cases l with
      | none =>
        exfalso
        by_cases hw : wi ≤ 0 <;> simp [BipolarParams.make, hw] at h
      | some li =>
        by_cases hw : wi ≤ 0
        · simp [BipolarParams.make, hw] at h
        · by_cases hl : li ≤ 0
          · simp [BipolarParams.make, hw, hl] at h
          · simp [BipolarParams.make, hw, hl] at h
            exact ⟨⟨wi, rfl, by omega⟩, ⟨li, rfl, by omega⟩, h.symm⟩
  · rintro ⟨⟨wi, rfl, hwi⟩, ⟨li, rfl, hli⟩, rfl⟩
    simp [BipolarParams.make, not_le.mpr hwi, not_le.mpr hli]

/-- Good ports pass the port loop. -/
theorem checkPorts_ok_of_good (primName : String) (ports : List Signal)
    (h : ∀ p ∈ ports, p.name ≠ "" ∧ p.vis = Visibility.PORT) :
    checkPorts primName ports = .ok () := by
  induction ports with
  | nil => rfl
  | cons p rest ih =>
    have hp := h p (by simp)
    simp only [checkPorts, if_neg hp.1, hp.2]
    simp only [ne_eq, not_true_eq_false, if_false]
    exact ih (fun q hq => h q (by simp [hq]))

/-- A bad port makes the port loop fail, with an error from one of the two
PortDefinitionError raise sites. -/
theorem checkPorts_error_of_bad (primName : String) (ports : List Signal)
    (h : ∃ p ∈ ports, p.name = "" ∨ p.vis ≠ Visibility.PORT) :
    ∃ e, checkPorts primName ports = .error e ∧
      e.isPortDefinitionError = true := by
  induction ports with
  | nil => simp at h
  | cons p rest ih =>
    by_cases hn : p.name = ""
    · exact ⟨.unnamedPort p primName, by simp [checkPorts, hn], rfl⟩
    · by_cases hv : p.vis = Visibility.PORT
      · have hrest : ∃ q ∈ rest, q.name = "" ∨ q.vis ≠ Visibility.PORT := by
          rcases h with ⟨q, hq, hbad⟩
          rcases List.mem_cons.mp hq with rfl | hmem
          · rcases hbad with h1 | h2
            · exact absurd h1 hn
            · exact absurd hv h2
          · exact ⟨q, hmem, hbad⟩
        obtain ⟨e, he, hpe⟩ := ih hrest
        exact ⟨e, by simp [checkPorts, hn, hv, he], hpe⟩
      · exact ⟨.invalidPortVis p.name primName,
          by simp [checkPorts, hn, hv], rfl⟩

/-! The claims. -/

/-- C1: the claim asserts that for every pair of distinct catalog
primitives, passing one's parameter value to the other fails with
ParameterTypeError — in particular a ResistorParams value passed to
PhysicalResistor. The code disagrees: PhysicalResistor is declared with
`paramtype=ResistorParams` (primitives.py line 242), while the
PhysicalResistorParams class defined just above it is never used, so a
ResistorParams value is accepted by PhysicalResistor. -/
theorem C1_physicalResistor_accepts_ResistorParams :
    Primitive.call PhysicalResistor (PValue.res ⟨1⟩)
        = .ok ⟨PhysicalResistor, PValue.res ⟨1⟩⟩ ∧
      PhysicalResistor.paramtype = PType.ResistorParams ∧
      PhysicalResistor.paramtype ≠ PType.PhysicalResistorParams :=
  ⟨rfl, rfl, by decide⟩

/-- C2: for every valid MosParams `p` (one its own validating construction
returns unchanged) `Nmos p` calls the Mos primitive with a copy of `p` whose
`tp` is forced to NMOS, and `Pmos`/`Npn`/`Pnp` likewise force PMOS/NPN/PNP;
the result binds exactly the field-overridden copy, so the input value is
not mutated. -/
theorem C2_variant_constructors (p : MosParams)
    (hp : MosParams.make p.w p.l p.npar p.tp p.vth p.model = .ok p)
    (q : BipolarParams)
    (hq : BipolarParams.make q.w q.l q.tp = .ok q) :
    Nmos p = .ok ⟨Mos, PValue.mos { p with tp := MosType.NMOS }⟩ ∧
      Pmos p = .ok ⟨Mos, PValue.mos { p with tp := MosType.PMOS }⟩ ∧
      Npn q = .ok ⟨Bipolar, PValue.bipolar { q with tp := BipolarType.NPN }⟩ ∧
      Pnp q = .ok ⟨Bipolar, PValue.bipolar { q with tp := BipolarType.PNP }⟩ := by
  rw [mosParams_make_ok_iff] at hp
  obtain ⟨hw, hl, hn, -⟩ := hp
  rw [bipolarParams_make_ok_iff] at hq
  obtain ⟨hqw, hql, -⟩ := hq
  have hm : ∀ tp', MosParams.make p.w p.l p.npar tp' p.vth p.model
      = .ok { p with tp := tp' } := by
    intro tp'
    rw [mosParams_make_ok_iff]
    exact ⟨hw, hl, hn, by cases p; rfl⟩
  have hb : ∀ tp', BipolarParams.make q.w q.l tp'
      = .ok { q with tp := tp' } := by
    intro tp'
    rw [bipolarParams_make_ok_iff]
    exact ⟨hqw, hql, by cases q; rfl⟩
  refine ⟨?_, ?_, ?_, ?_⟩ <;>
    simp [Nmos, Pmos, Npn, Pnp, hm, hb, Primitive.call, PrimitiveCall.make,
      isinstance, Mos, Bipolar]

/-- C2 witness: `Nmos` on a valid PMOS-typed parameter value yields the Mos
call with `tp` forced to NMOS and every other field unchanged. -/
theorem C2_witness :
    Nmos ⟨some 1, some 1, 1, MosType.PMOS, MosVth.STD, none⟩
      = .ok ⟨Mos,
          PValue.mos ⟨some 1, some 1, 1, MosType.NMOS, MosVth.STD, none⟩⟩ :=
  (C2_variant_constructors
    ⟨some 1, some 1, 1, MosType.PMOS, MosVth.STD, none⟩ (by decide)
    ⟨some 1, some 1, BipolarType.PNP⟩ (by decide)).1

/-- C3: supplied nonpositive width, length, or parallel-finger count fail
MosParams construction with a ParameterValueError and no value; all-positive
values pass; likewise for BipolarParams width and length. -/
theorem C3_geometry_value_checks :
    (∀ (wi li npar : Int) (tp : MosType) (vth : MosVth)
        (model : Option String), wi ≤ 0 ∨ li ≤ 0 ∨ npar ≤ 0 →
      ∃ e, MosParams.make (some wi) (some li) npar tp vth model = .error e ∧
        e.isParameterValueError = true) ∧
    (∀ (wi li npar : Int) (tp : MosType) (vth : MosVth)
        (model : Option String), 0 < wi → 0 < li → 0 < npar →
      MosParams.make (some wi) (some li) npar tp vth model
        = .ok ⟨some wi, some li, npar, tp, vth, model⟩) ∧
    (∀ (wi li : Int) (tp : BipolarType), wi ≤ 0 ∨ li ≤ 0 →
      ∃ e, BipolarParams.make (some wi) (some li) tp = .error e ∧
        e.isParameterValueError = true) ∧
    (∀ (wi li : Int) (tp : BipolarType), 0 < wi → 0 < li →
      BipolarParams.make (some wi) (some li) tp
        = .ok ⟨some wi, some li, tp⟩) := by
  refine ⟨?_, ?_, ?_, ?_⟩
  · intro wi li npar tp vth model h
    by_cases hw : wi ≤ 0
    · exact ⟨.mosInvalidWidth wi, by simp [MosParams.make, hw], rfl⟩
    · by_cases hl : li ≤ 0
      · exact ⟨.mosInvalidLength li, by simp [MosParams.make, hw, hl], rfl⟩
      · have hn : npar ≤ 0 := by tauto
        exact ⟨.mosInvalidNpar npar,
          by simp [MosParams.make, hw, hl, hn], rfl⟩
  · intro wi li npar tp vth model h1 h2 h3
    simp [MosParams.make, not_le.mpr h1, not_le.mpr h2, not_le.mpr h3]
  · intro wi li tp h
    by_cases hw : wi ≤ 0
    · exact ⟨.bipolarInvalidWidth wi, by simp [BipolarParams.make, hw], rfl⟩
    · have hl : li ≤ 0 := by tauto
      exact ⟨.bipolarInvalidLength li,
        by simp [BipolarParams.make, hw, hl], rfl⟩
  · intro wi li tp h1 h2
    simp [BipolarParams.make, not_le.mpr h1, not_le.mpr h2]

/-- C3 witness: `MosParams(w=0, l=1)` fails with a ParameterValueError and
`MosParams(w=1, l=1)` passes the checks. -/
theorem C3_witness :
    (∃ e, MosParams.make (some 0) (some 1) 1 MosType.NMOS MosVth.STD none
        = .error e ∧ e.isParameterValueError = true) ∧
      MosParams.make (some 1) (some 1) 1 MosType.NMOS MosVth.STD none
        = .ok ⟨some 1, some 1, 1, MosType.NMOS, MosVth.STD, none⟩ :=
  ⟨C3_geometry_value_checks.1 0 1 1 MosType.NMOS MosVth.STD none
      (Or.inl (by decide)),
    C3_geometry_value_checks.2.1 1 1 1 MosType.NMOS MosVth.STD none
      (by decide) (by decide) (by decide)⟩

/-- C4 counterexample: a Primitive construction whose port list contains an
unnamed port but whose paramtype is also invalid fails with the
ConfigurationError for the paramtype — the paramclass check runs first — not
with a PortDefinitionError as the claim states. -/
theorem C4_counterexample :
    Primitive.make "Bad" "bad" [⟨"", Visibility.PORT⟩] PType.NotAParamclass
        PrimitiveType.PHYSICAL
      = .error (.invalidParamType PType.NotAParamclass "Bad") ∧
    (Err.invalidParamType PType.NotAParamclass "Bad").isPortDefinitionError
      = false :=
  ⟨rfl, rfl⟩

/-- C4 (amended): a port with an empty name or non-PORT visibility always
prevents construction (no Primitive value is produced); the failure is a
PortDefinitionError whenever the parameter-schema type passes the paramclass
check, which runs first; and when every port has a non-empty name and PORT
visibility the port checks pass. -/
theorem C4_port_validation :
    (∀ (name desc : String) (ports : List Signal) (pt : PType)
        (prty : PrimitiveType),
      (∃ p ∈ ports, p.name = "" ∨ p.vis ≠ Visibility.PORT) →
        (∀ r, Primitive.make name desc ports pt prty ≠ .ok r) ∧
        (isparamclass pt = true →
          ∃ e, Primitive.make name desc ports pt prty = .error e ∧
            e.isPortDefinitionError = true)) ∧
    (∀ (primName : String) (ports : List Signal),
      (∀ p ∈ ports, p.name ≠ "" ∧ p.vis = Visibility.PORT) →
        checkPorts primName ports = .ok ()) := by
  constructor
  · intro name desc ports pt prty hbad
    obtain ⟨e, he, hpe⟩ := checkPorts_error_of_bad name ports hbad
    constructor
    · intro r hr
      by_cases hpt : isparamclass pt = false
      · simp [Primitive.make, hpt] at hr
      · simp [Primitive.make, hpt, he] at hr
    · intro hpt
      refine ⟨e, ?_, hpe⟩
      simp [Primitive.make, hpt, he]
  · exact checkPorts_ok_of_good

/-- C4 witness: with a valid paramclass, an unnamed port fails construction
with a PortDefinitionError raise site (the unnamed-port ValueError). -/
theorem C4_witness :
    Primitive.make "Bad" "bad" [⟨"", Visibility.PORT⟩] PType.MosParams
        PrimitiveType.PHYSICAL
      = .error (.unnamedPort ⟨"", Visibility.PORT⟩ "Bad") ∧
    (Err.unnamedPort ⟨"", Visibility.PORT⟩ "Bad").isPortDefinitionError
      = true := by
  have h := (C4_port_validation.1 "Bad" "bad" [⟨"", Visibility.PORT⟩]
    PType.MosParams PrimitiveType.PHYSICAL
    ⟨⟨"", Visibility.PORT⟩, by simp, Or.inl rfl⟩).2 rfl
  obtain ⟨e, he, hpe⟩ := h
  have : e = .unnamedPort ⟨"", Visibility.PORT⟩ "Bad" := by
    have : Primitive.make "Bad" "bad" [⟨"", Visibility.PORT⟩] PType.MosParams
        PrimitiveType.PHYSICAL
      = .error (.unnamedPort ⟨"", Visibility.PORT⟩ "Bad") := rfl
    rw [this] at he
    exact (Except.error.injEq _ _).mp he.symm
  exact ⟨by rw [← this]; exact he, by rw [← this]; exact hpe⟩

/-- C5: an unrecognized parameter-schema type fails Primitive construction
with the ConfigurationError naming the offending type and the primitive
name, and no Primitive value is produced. -/
theorem C5_paramtype_check (name desc : String) (ports : List Signal)
    (pt : PType) (prty : PrimitiveType) (h : isparamclass pt = false) :
    Primitive.make name desc ports pt prty
        = .error (.invalidParamType pt name) ∧
      (Err.invalidParamType pt name).isConfigurationError = true :=
  ⟨by simp [Primitive.make, h], rfl⟩

/-- C5 witness: applying the check to a non-paramclass type. -/
theorem C5_witness :
    Primitive.make "Mos" "Mos Transistor" MosPorts PType.NotAParamclass
        PrimitiveType.PHYSICAL
      = .error (.invalidParamType PType.NotAParamclass "Mos") :=
  (C5_paramtype_check "Mos" "Mos Transistor" MosPorts PType.NotAParamclass
    PrimitiveType.PHYSICAL rfl).1

/-- C6: marking a non-connectable type fails with the CapabilityError and
performs no mutation, so `is_concatable` stays false for its instances;
marking a connectable type succeeds, returning the type with the marker set,
after which `is_concatable` is true for its instances; instances of types
never marked report false. -/
theorem C6_concatable_marking (T : PyType) :
    (is_connectable T = false → T.concatableAttr = false →
      concatable T = .error (.notConnectable T.name) ∧
        (Err.notConnectable T.name).isCapabilityError = true ∧
        is_concatable ⟨T⟩ = false) ∧
    (is_connectable T = true →
      concatable T = .ok { T with concatableAttr := true } ∧
        is_concatable ⟨{ T with concatableAttr := true }⟩ = true) ∧
    (T.concatableAttr = false → is_concatable ⟨T⟩ = false) :=
  ⟨fun h1 h2 => ⟨by simp [concatable, h1], rfl, h2⟩,
    fun h1 => ⟨by simp [concatable, h1], rfl⟩,
    fun h => h⟩

/-- C6 witness: a concrete non-connectable type is rejected and stays
unmarked; a concrete connectable type is marked and its instances report
concatable. -/
theorem C6_witness :
    concatable ⟨"Wire", false, false⟩ = .error (.notConnectable "Wire") ∧
      is_concatable ⟨⟨"Wire", false, false⟩⟩ = false ∧
      concatable ⟨"Sig", true, false⟩ = .ok ⟨"Sig", true, true⟩ ∧
      is_concatable ⟨⟨"Sig", true, true⟩⟩ = true :=
  ⟨((C6_concatable_marking ⟨"Wire", false, false⟩).1 rfl rfl).1,
    ((C6_concatable_marking ⟨"Wire", false, false⟩).1 rfl rfl).2.2,
    ((C6_concatable_marking ⟨"Sig", true, false⟩).2.1 rfl).1,
    ((C6_concatable_marking ⟨"Sig", true, false⟩).2.1 rfl).2⟩

/-- C7: every PrimitiveCall's ports mapping equals its bound primitive's,
which is the name-keyed mapping over the ordered port list; the
`Mos.call(MosParams(w=1, l=1))` construction succeeds and its ports are
keyed d, g, s, b. -/
theorem C7_ports_delegation :
    (∀ c : PrimitiveCall, c.ports = c.prim.ports) ∧
      (∀ p : Primitive, p.ports = p.port_list.map (fun s => (s.name, s))) ∧
      MosParams.make (some 1) (some 1) 1 MosType.NMOS MosVth.STD none
        = .ok ⟨some 1, some 1, 1, MosType.NMOS, MosVth.STD, none⟩ ∧
      Primitive.call Mos
          (PValue.mos ⟨some 1, some 1, 1, MosType.NMOS, MosVth.STD, none⟩)
        = .ok ⟨Mos,
            PValue.mos ⟨some 1, some 1, 1, MosType.NMOS, MosVth.STD, none⟩⟩ ∧
      (PrimitiveCall.ports
          ⟨Mos, PValue.mos ⟨some 1, some 1, 1, MosType.NMOS, MosVth.STD,
            none⟩⟩).map Prod.fst
        = ["d", "g", "s", "b"] :=
  ⟨fun _ => rfl, fun _ => rfl, rfl, rfl, rfl⟩

/-- C9 counterexample: with width supplied as 0 and length left at its None
default, MosParams construction fails with the ParameterValueError for the
width — not the None-comparison TypeError the claim asserts for every
construction with a None geometry field. -/
theorem C9_counterexample :
    MosParams.make (some 0) none 1 MosType.NMOS MosVth.STD none
        = .error (.mosInvalidWidth 0) ∧
      Err.mosInvalidWidth 0 ≠ Err.noneComparison ∧
      (Err.mosInvalidWidth 0).isParameterValueError = true :=
  ⟨rfl, by decide, rfl⟩

/-- C9 (amended): a MosParams construction with width None fails with the
None-comparison TypeError, as does one with a positive supplied width and
length None; a supplied nonpositive width fires its ParameterValueError
first; and no successful construction ever produces a value with None width
or length. -/
theorem C9_none_geometry (wi : Int) (hwi : 0 < wi) :
    (∀ (l : Option Int) (npar : Int) (tp : MosType) (vth : MosVth)
        (model : Option String),
      MosParams.make none l npar tp vth model = .error .noneComparison) ∧
    (∀ (npar : Int) (tp : MosType) (vth : MosVth) (model : Option String),
      MosParams.make (some wi) none npar tp vth model
        = .error .noneComparison) ∧
    (∀ (w l : Option Int) (npar : Int) (tp : MosType) (vth : MosVth)
        (model : Option String) (r : MosParams),
      MosParams.make w l npar tp vth model = .ok r →
        r.w ≠ none ∧ r.l ≠ none) := by
  refine ⟨fun l npar tp vth model => rfl,
    fun npar tp vth model => ?_,
    fun w l npar tp vth model r h => ?_⟩
  · simp [MosParams.make, not_le.mpr hwi]
  · rw [mosParams_make_ok_iff] at h
    obtain ⟨⟨a, ha, -⟩, ⟨b, hb, -⟩, -, rfl⟩ := h
    exact ⟨by simp [ha], by simp [hb]⟩

/-- C9 witness: width 1 with length left None fails with the
None-comparison TypeError. -/
theorem C9_witness :
    MosParams.make (some 1) none 1 MosType.NMOS MosVth.STD none
      = .error .noneComparison :=
  (C9_none_geometry 1 (by decide)).2.1 1 MosType.NMOS MosVth.STD none

/-- C10: a zero-argument call binds the NoParams sentinel, no catalog
primitive declares the sentinel as its schema, and so every parameter-less
instantiation of a catalog primitive fails with the parameter-type error. -/
theorem C10_no_parameterless_instantiation :
    ∀ p ∈ catalog,
      p.paramtype ≠ PType.NoParamsType ∧
        Primitive.callNoArg p
          = .error (.invalidCallParams PValue.noParams p.name p.paramtype) := by
  decide

/-- C10 witness: the zero-argument Mos call fails with the parameter-type
error. -/
theorem C10_witness :
    Mos.paramtype ≠ PType.NoParamsType ∧
      Primitive.callNoArg Mos
        = .error (.invalidCallParams PValue.noParams "Mos" PType.MosParams) :=
  C10_no_parameterless_instantiation Mos (by decide)

end Hdl21
